import Mathlib

/-!
Verification of the `airscape` library (`src/airscape/__init__.py`), a client
for AirScape whole-house fans.  The development shallowly embeds:

* the status-response sanitizer of `Fan.get_device_state`, i.e. the Python
  call `re.findall(r"(?!\s+.*server_response\".*$)^\s+\"\w+.*", text, re.M)`
  followed by wrapping the matches in an object literal;
* a model of `json.loads` (strict JSON: objects, arrays, strings with the
  standard escapes and the strict rejection of raw control characters,
  numbers as exact decimal rationals, `true`/`false`/`null`; the float
  rounding of CPython and the non-standard `NaN`/`Infinity` literals are
  not modelled);
* the stateful operations of class `Fan` (`get_device_state`,
  `set_device_state`, the `is_on` and `speed` setters, `speed_up`,
  `slow_down`, `add_time`, `max_speed`), with the HTTP device abstracted as
  a deterministic transition system and the unbounded Python `while` loops
  given an explicit fuel budget (`Outcome.spin` = budget exhausted).

The table `MAX_FAN_SPEED` lives in `airscape/const.py`; all statements about
it are universally quantified over the table, so no concrete contents are
assumed.
-/

namespace Airscape

/-! ### Character classes

ASCII readings of Python's `\s` and `\w` for `str` patterns (the full
Unicode classes are not modelled; the device emits ASCII). -/

/-- Python regex `\s` (ASCII part): space, tab, newline, CR, VT, FF. -/
def isWs (c : Char) : Bool :=
  decide (c = ' ' ∨ c = '\t' ∨ c = '\n' ∨ c = '\x0d' ∨ c = '\x0b' ∨ c = '\x0c')

/-- Python regex `\w` (ASCII part): letters, digits, underscore. -/
def isWord (c : Char) : Bool :=
  decide ((97 ≤ c.toNat ∧ c.toNat ≤ 122) ∨ (65 ≤ c.toNat ∧ c.toNat ≤ 90) ∨
          (48 ≤ c.toNat ∧ c.toNat ≤ 57) ∨ c.toNat = 95)

/-- `.` of a non-DOTALL Python regex: any character but a newline. -/
def notNl (c : Char) : Bool := !(c = '\n')

/-! ### Substring machinery (used to state the sanitization property) -/

/-- `startsW p l`: `l` starts with `p`. -/
def startsW : List Char → List Char → Bool
  | [], _ => true
  | _ :: _, [] => false
  | a :: ps, b :: ls => a == b && startsW ps ls

/-- `hasSub p l`: `p` occurs as a contiguous substring of `l`. -/
def hasSub (p : List Char) : List Char → Bool
  | [] => p.isEmpty
  | c :: rest => startsW p (c :: rest) || hasSub p rest

/-- The marker whose presence on a line makes the negative lookahead of the
sanitizing regex fire: the diagnostic field name followed by its closing
quote, as it appears in the raw payload's `"server_response": ...` line. -/
def srMarker : List Char := "server_response\"".toList

/-! ### The sanitizing regex of `Fan.get_device_state`

Embedding of `re.findall(r"(?!\s+.*server_response\".*$)^\s+\"\w+.*", text,
re.M)`.  At a line start, the negative lookahead `(?!\s+.*server_response\".*$)`
fails the position when, after at least one whitespace character (`\s`
matches newlines), the remainder of the then-current line contains
`server_response"`.  The main pattern then consumes `\s+` (maximal, since a
quote is not whitespace), a double quote, a word character, and the rest of
that line. -/

/-- Does the current line (up to the next newline) contain the
`server_response"` marker?  This is `.*server_response\".*$` at a fixed
position. -/
def lineSR (cs : List Char) : Bool := hasSub srMarker (cs.takeWhile notNl)

/-- `\s+.*server_response\".*$` after the first whitespace character has been
consumed: either stop consuming whitespace here and require the marker on
the current line, or consume one more whitespace character. -/
def lookAafter : List Char → Bool
  | [] => false
  | c :: rest => lineSR (c :: rest) || (isWs c && lookAafter rest)

/-- The lookahead body `\s+.*server_response\".*$` tried at a position. -/
def lookA : List Char → Bool
  | [] => false
  | c :: rest => isWs c && lookAafter rest

/-- The main pattern `\s+\"\w+.*` tried at a position: returns the matched
text and the remainder of the input (the match always ends at the end of a
line).  `\s+` is effectively maximal because `"` is not whitespace. -/
def mainMatch (cs : List Char) : Option (List Char × List Char) :=
  match cs.dropWhile isWs with
  | c₁ :: c₂ :: rest₂ =>
    if (cs.takeWhile isWs).isEmpty then none
    else if c₁ == '"' && isWord c₂ then
      some (cs.takeWhile isWs ++ c₁ :: c₂ :: rest₂.takeWhile notNl, rest₂.dropWhile notNl)
    else none
  | _ => none

/-- `re.findall` scan: try the pattern at every position, left to right,
non-overlapping.  `^` (multiline) restricts attempts to line starts, tracked
by `atStart`.  Fuel is structural and `length + 1` always suffices since
every step consumes at least one character. -/
def scanF : Nat → List Char → Bool → List (List Char)
  | 0, _, _ => []
  | _ + 1, [], _ => []
  | fuel + 1, c :: rest, atStart =>
    if atStart && !lookA (c :: rest) then
      match mainMatch (c :: rest) with
      | some (m, after) => m :: scanF fuel after false
      | none => scanF fuel rest (c == '\n')
    else scanF fuel rest (c == '\n')

/-- The `clean_list` of `Fan.get_device_state`: all regex matches. -/
def cleanList (raw : List Char) : List (List Char) :=
  scanF (raw.length + 1) raw true

/-- The `clean_text` of `Fan.get_device_state`:
`"{ " + "\n".join(clean_list) + " }"`. -/
def cleanText (raw : List Char) : List Char :=
  "\x7b ".toList ++ List.intercalate ['\n'] (cleanList raw) ++ " \x7d".toList

example : cleanList "  \"fanspd\": 5".toList = ["  \"fanspd\": 5".toList] := rfl
example : cleanList "\"fanspd\": 5".toList = [] := rfl
example : cleanList "\n\"fanspd\": 5".toList = ["\n\"fanspd\": 5".toList] := rfl
example : cleanList "  \"server_response\": junk".toList = [] := rfl
example :
    cleanList "ipaddr: x\n  \"fanspd\": 2\n  \"server_response\": a\x01b\n  \"model\": \"m\"".toList
      = ["  \"fanspd\": 2".toList, "  \"model\": \"m\"".toList] := rfl

/-! ### A model of `json.loads`

Strict (default-flag) CPython `json.loads`, with JSON numbers read as exact
decimal rationals.  Duplicate object keys follow Python's dict semantics:
the last occurrence wins (see `lookupLast`). -/

/-- Exceptions of the embedded program.  `connectionError` and `timeout` are
the library's `airscape.exceptions` classes; `jsonError` stands for the
`ValueError` of a failed `json.loads`; `keyError`/`typeError` are the
corresponding Python built-ins. -/
inductive Exn where
  | connectionError | timeout | jsonError | keyError | typeError
deriving DecidableEq

/-- JSON values as produced by the modelled `json.loads`. -/
inductive JVal where
  | null : JVal
  | bool : Bool → JVal
  | num : ℚ → JVal
  | str : String → JVal
  | arr : List JVal → JVal
  | obj : List (String × JVal) → JVal

/-- JSON whitespace (the only characters `json.loads` skips between tokens). -/
def jsWs (c : Char) : Bool := decide (c = ' ' ∨ c = '\t' ∨ c = '\n' ∨ c = '\x0d')

/-- Skip JSON whitespace. -/
def skipWs (cs : List Char) : List Char := cs.dropWhile jsWs

/-- ASCII digit. -/
def isDigit (c : Char) : Bool := decide (48 ≤ c.toNat ∧ c.toNat ≤ 57)

/-- Value of a hexadecimal digit. -/
def hexVal (c : Char) : Option Nat :=
  if isDigit c then some (c.toNat - 48)
  else if decide (97 ≤ c.toNat ∧ c.toNat ≤ 102) then some (c.toNat - 87)
  else if decide (65 ≤ c.toNat ∧ c.toNat ≤ 70) then some (c.toNat - 55)
  else none

/-- The single-character JSON string escapes (backslash already consumed;
`u` is handled separately by the caller). -/
def escChar : Char → Option Char
  | 'n' => some '\n'
  | 't' => some '\t'
  | 'r' => some '\x0d'
  | 'b' => some '\x08'
  | 'f' => some '\x0c'
  | '"' => some '"'
  | '\\' => some '\\'
  | '/' => some '/'
  | _ => none

/-- Parse the body of a JSON string (the opening quote already consumed),
returning the decoded characters and the input after the closing quote.
Strict mode: a raw character below 0x20 is an error. -/
def pstring : List Char → Except Exn (List Char × List Char)
  | [] => .error .jsonError
  | c :: rest =>
    if c == '"' then .ok ([], rest)
    else if c == '\\' then
      match rest with
      | [] => .error .jsonError
      | e :: rest₂ =>
        if e == 'u' then
          match rest₂ with
          | h₁ :: h₂ :: h₃ :: h₄ :: rest₃ =>
            match hexVal h₁, hexVal h₂, hexVal h₃, hexVal h₄ with
            | some a, some b, some c', some d =>
              match pstring rest₃ with
              | .ok (s, r) => .ok (Char.ofNat (((a * 16 + b) * 16 + c') * 16 + d) :: s, r)
              | .error er => .error er
            | _, _, _, _ => .error .jsonError
          | _ => .error .jsonError
        else
          match escChar e with
          | some ec =>
            match pstring rest₂ with
            | .ok (s, r) => .ok (ec :: s, r)
            | .error er => .error er
          | none => .error .jsonError
    else if c.toNat < 32 then .error .jsonError
    else
      match pstring rest with
      | .ok (s, r) => .ok (c :: s, r)
      | .error er => .error er

/-- Numeric value of a digit string. -/
def digitsVal (ds : List Char) : Nat := ds.foldl (fun a c => a * 10 + (c.toNat - 48)) 0

/-- `10 ^ n` in `ℚ`, by plain recursion (kernel-reducible). -/
def pow10 : Nat → ℚ
  | 0 => 1
  | n + 1 => 10 * pow10 n

/-- Finish a JSON number after its integer part, reading the optional
fraction and exponent exactly as the grammar `(\.\d+)? ([eE][-+]?\d+)?`
does: a `.` or `e` not followed by the required digits simply ends the
number.  Integer-valued literals take the cast-from-`Int` path so that
concrete runs reduce without rational normalisation. -/
def afterInt (neg : Bool) (ip : Nat) (cs : List Char) : ℚ × List Char :=
  let fr : List Char × List Char :=
    match cs with
    | c :: d :: rest => if c == '.' && isDigit d then
        ((d :: rest).takeWhile isDigit, (d :: rest).dropWhile isDigit)
      else ([], cs)
    | _ => ([], cs)
  let frDs := fr.1
  let cs₂ := fr.2
  let ex : Option (Bool × List Char) × List Char :=
    match cs₂ with
    | c :: d :: rest =>
      if c == 'e' || c == 'E' then
        if isDigit d then (some (false, (d :: rest).takeWhile isDigit), (d :: rest).dropWhile isDigit)
        else match rest with
          | d₂ :: rest₂ =>
            if (d == '+' || d == '-') && isDigit d₂ then
              (some (d == '-', (d₂ :: rest₂).takeWhile isDigit), (d₂ :: rest₂).dropWhile isDigit)
            else (none, cs₂)
          | [] => (none, cs₂)
      else (none, cs₂)
    | _ => (none, cs₂)
  let mant : Nat := ip * 10 ^ frDs.length + digitsVal frDs
  let signed : Int := if neg then -(mant : Int) else (mant : Int)
  let q : ℚ :=
    match frDs, ex.1 with
    | [], none => (signed : ℚ)
    | _, _ =>
      let base : ℚ := (signed : ℚ) / pow10 frDs.length
      match ex.1 with
      | none => base
      | some (eneg, eds) => if eneg then base / pow10 (digitsVal eds) else base * pow10 (digitsVal eds)
  (q, ex.2)

/-- Parse a JSON number beginning at the current position (caller has checked
that a `-` or digit is next).  Mirrors the grammar `-?(0|[1-9]\d*)`: a
leading `0` is not followed by more integer digits. -/
def pnumber (cs : List Char) : Except Exn (ℚ × List Char) :=
  let sg : Bool × List Char :=
    match cs with
    | c :: rest => if c == '-' then (true, rest) else (false, cs)
    | [] => (false, cs)
  match sg.2 with
  | [] => .error .jsonError
  | c :: rest =>
    if c == '0' then .ok (afterInt sg.1 0 rest)
    else if isDigit c then
      .ok (afterInt sg.1 (digitsVal (c :: rest.takeWhile isDigit)) (rest.dropWhile isDigit))
    else .error .jsonError

/-- A partially-built JSON container, for the iterative value parser. -/
inductive JFrame where
  | arrF : List JVal → JFrame
  | objF : List (String × JVal) → String → JFrame

/-- One step of the iterative JSON value parser.  `.inl cs` = a value is
expected at `cs`; `.inr (v, cs)` = value `v` was just completed and `cs`
follows it; `stack` holds the open containers.  Each recursive call consumes
at least one character, so fuel `length + 1` suffices. -/
def jstep : Nat → List JFrame → (List Char ⊕ (JVal × List Char)) → Except Exn (JVal × List Char)
  | 0, _, _ => .error .jsonError
  | fuel + 1, stack, .inl cs =>
    match skipWs cs with
    | [] => .error .jsonError
    | c :: rest =>
      if c == '\x7b' then
        match skipWs rest with
        | c₂ :: rest₂ =>
          if c₂ == '\x7d' then jstep fuel stack (.inr (JVal.obj [], rest₂))
          else if c₂ == '"' then
            match pstring rest₂ with
            | .error e => .error e
            | .ok (k, rest₃) =>
              match skipWs rest₃ with
              | c₃ :: rest₄ =>
                if c₃ == ':' then jstep fuel (JFrame.objF [] (String.mk k) :: stack) (.inl rest₄)
                else .error .jsonError
              | [] => .error .jsonError
          else .error .jsonError
        | [] => .error .jsonError
      else if c == '[' then
        match skipWs rest with
        | c₂ :: rest₂ =>
          if c₂ == ']' then jstep fuel stack (.inr (JVal.arr [], rest₂))
          else jstep fuel (JFrame.arrF [] :: stack) (.inl (c₂ :: rest₂))
        | [] => .error .jsonError
      else if c == '"' then
        match pstring rest with
        | .error e => .error e
        | .ok (s, rest₂) => jstep fuel stack (.inr (JVal.str (String.mk s), rest₂))
      else if c == 't' then
        if startsW "rue".toList rest then jstep fuel stack (.inr (JVal.bool true, rest.drop 3))
        else .error .jsonError
      else if c == 'f' then
        if startsW "alse".toList rest then jstep fuel stack (.inr (JVal.bool false, rest.drop 4))
        else .error .jsonError
      else if c == 'n' then
        if startsW "ull".toList rest then jstep fuel stack (.inr (JVal.null, rest.drop 3))
        else .error .jsonError
      else if c == '-' || isDigit c then
        match pnumber (c :: rest) with
        | .error e => .error e
        | .ok (q, rest₂) => jstep fuel stack (.inr (JVal.num q, rest₂))
      else .error .jsonError
  | fuel + 1, stack, .inr (v, cs) =>
    match stack with
    | [] => .ok (v, cs)
    | JFrame.arrF acc :: stack' =>
      match skipWs cs with
      | c :: rest =>
        if c == ',' then jstep fuel (JFrame.arrF (acc ++ [v]) :: stack') (.inl rest)
        else if c == ']' then jstep fuel stack' (.inr (JVal.arr (acc ++ [v]), rest))
        else .error .jsonError
      | [] => .error .jsonError
    | JFrame.objF acc key :: stack' =>
      match skipWs cs with
      | c :: rest =>
        if c == ',' then
          match skipWs rest with
          | c₂ :: rest₂ =>
            if c₂ == '"' then
              match pstring rest₂ with
              | .error e => .error e
              | .ok (k, rest₃) =>
                match skipWs rest₃ with
                | c₃ :: rest₄ =>
                  if c₃ == ':' then
                    jstep fuel (JFrame.objF (acc ++ [(key, v)]) (String.mk k) :: stack') (.inl rest₄)
                  else .error .jsonError
                | [] => .error .jsonError
            else .error .jsonError
          | [] => .error .jsonError
        else if c == '\x7d' then jstep fuel stack' (.inr (JVal.obj (acc ++ [(key, v)]), rest))
        else .error .jsonError
      | [] => .error .jsonError

/-- The model of `json.loads`: parse one JSON value and require that only
whitespace follows it. -/
def jsonLoads (cs : List Char) : Except Exn JVal :=
  match jstep (cs.length + 1) [] (.inl cs) with
  | .error e => .error e
  | .ok (v, rest) => if (skipWs rest).isEmpty then .ok v else .error .jsonError

/-- The whole parsing step of `Fan.get_device_state` on a raw response body:
sanitize, wrap in braces, `json.loads`. -/
def parseStatus (raw : List Char) : Except Exn JVal := jsonLoads (cleanText raw)

example : jsonLoads "\x7b \"a\": 1, \"b\": [true, null, \"x\"] \x7d".toList
    = .ok (JVal.obj [("a", JVal.num 1), ("b", JVal.arr [JVal.bool true, JVal.null, JVal.str "x"])]) := rfl
example : jsonLoads "\x7b \"a\": 1, \x7d".toList = .error .jsonError := rfl
example : jsonLoads "\x7b \"a\": \"b\x01c\" \x7d".toList = .error .jsonError := rfl
example : parseStatus "  \"fanspd\": 5,\n  \"doorinprocess\": 0,\n  \"server_response\": \x02junk\",\n  \"model\": \"m\"".toList
    = .ok (JVal.obj [("fanspd", JVal.num 5), ("doorinprocess", JVal.num 0), ("model", JVal.str "m")]) := rfl
example : parseStatus "  \"bad".toList = .error .jsonError := rfl

/-! ### Python dictionary / value helpers -/

/-- Dictionary lookup with Python's duplicate-key semantics: the binding
added last wins (as when a dict is built by successive insertions, which is
what `json.loads` does). -/
def lookupLast {α : Type} (fs : List (String × α)) (k : String) : Option α :=
  match fs with
  | [] => none
  | (k', v) :: rest =>
    match lookupLast rest k with
    | some r => some r
    | none => if k' == k then some v else none

/-- Python `value[key]` subscription: `KeyError` for a missing key,
`TypeError` when the value is not a dict. -/
def pyIndex (d : JVal) (k : String) : Except Exn JVal :=
  match d with
  | .obj fs =>
    match lookupLast fs k with
    | some v => .ok v
    | none => .error .keyError
  | _ => .error .typeError

/-- Python `bool(...)` truthiness of a JSON-decoded value (never raises). -/
def pyTruthy : JVal → Bool
  | .null => false
  | .bool b => b
  | .num q => decide (q ≠ 0)
  | .str s => !(s == "")
  | .arr xs => !xs.isEmpty
  | .obj fs => !fs.isEmpty

/-- Python `k <= v` for an `int` literal `k` (a `bool` counts as its int
value; other non-numeric values raise `TypeError`). -/
def pyLeIntJ (k : Int) (v : JVal) : Except Exn Bool :=
  match v with
  | .num q => .ok (decide ((k : ℚ) ≤ q))
  | .bool b => .ok (decide (k ≤ (if b then (1 : Int) else 0)))
  | _ => .error .typeError

/-- Python `k < v` for an `int` literal `k`. -/
def pyLtIntJ (k : Int) (v : JVal) : Except Exn Bool :=
  match v with
  | .num q => .ok (decide ((k : ℚ) < q))
  | .bool b => .ok (decide (k < (if b then (1 : Int) else 0)))
  | _ => .error .typeError

/-- Python `v < k` for an `int` literal `k`. -/
def pyLtJInt (v : JVal) (k : Int) : Except Exn Bool :=
  match v with
  | .num q => .ok (decide (q < (k : ℚ)))
  | .bool b => .ok (decide ((if b then (1 : Int) else 0) < k))
  | _ => .error .typeError

/-- Python `v == k` for an `int` literal `k` (never raises: values of a
different type simply compare unequal; a `bool` equals its int value). -/
def pyEqJInt (v : JVal) (k : Int) : Bool :=
  match v with
  | .num q => decide (q = (k : ℚ))
  | .bool b => decide ((if b then (1 : Int) else 0) = k)
  | _ => false

/-- Python `MAX_FAN_SPEED.get(v, dflt)` on a str-keyed dict: returns the
entry for a string key, the default for any other hashable value, and
raises `TypeError` for unhashable values (lists, dicts). -/
def dict_get (table : List (String × Int)) (v : JVal) (dflt : Int) : Except Exn Int :=
  match v with
  | .str s => .ok ((lookupLast table s).getD dflt)
  | .arr _ => .error .typeError
  | .obj _ => .error .typeError
  | _ => .ok dflt

/-! ### The device and the `Fan` operations

The two HTTP endpoints are abstracted as a deterministic transition system
`DeviceModel δ`; a world `W δ` holds the device, the log of issued requests
and the fan's cached `_data`.  The unbounded `while` loops of the source get
an explicit fuel budget: `Outcome.spin` reports that the budget ran out (the
loop did not terminate within it), and is distinct from every exception. -/

/-- Result of one HTTP `requests.get`, as the library distinguishes them:
success, `requests.exceptions.ConnectionError`, or
`requests.exceptions.ReadTimeout`. -/
inductive HRes (α : Type) where
  | ok : α → HRes α
  | connErr : HRes α
  | readTimeout : HRes α

/-- A deterministic device behind the two endpoints: `serveStatus` answers
`GET /status.json.cgi` with a raw body, `serveCmd` answers
`GET /fanspd.cgi?dir=cmd`; both may fail and may change the device state. -/
structure DeviceModel (δ : Type) where
  serveStatus : δ → HRes (List Char) × δ
  serveCmd : δ → Int → HRes Unit × δ

/-- One request issued by the library: a command GET with its `dir` code, or
a status GET. -/
inductive Ev where
  | cmd : Int → Ev
  | status : Ev
deriving DecidableEq

/-- The command codes present in a request log, in order. -/
def cmdsOf (l : List Ev) : List Int :=
  l.filterMap (fun e => match e with | .cmd c => some c | .status => none)

/-- World state: the device, the request log, and the fan's cached `_data`
dictionary. -/
structure W (δ : Type) where
  dev : δ
  log : List Ev
  data : JVal

/-- Result of an operation: normal return, a propagating Python exception,
or loop-fuel exhaustion. -/
inductive Outcome (α : Type) where
  | ok : α → Outcome α
  | exn : Exn → Outcome α
  | spin : Outcome α

variable {δ : Type}

/-- `Fan.get_device_state`: GET the status endpoint, translate the two
request exceptions, otherwise sanitize and parse the body; `_data` is
assigned only after a successful parse. -/
def get_device_state (dm : DeviceModel δ) (w : W δ) : Outcome JVal × W δ :=
  match dm.serveStatus w.dev with
  | (.connErr, d') => (.exn .connectionError, { w with dev := d', log := w.log ++ [.status] })
  | (.readTimeout, d') => (.exn .timeout, { w with dev := d', log := w.log ++ [.status] })
  | (.ok text, d') =>
    match parseStatus text with
    | .error e => (.exn e, { w with dev := d', log := w.log ++ [.status] })
    | .ok v => (.ok v, { dev := d', log := w.log ++ [.status], data := v })

/-- `Fan.set_device_state`: GET the command endpoint with the `dir` code,
translate the two request exceptions, then unconditionally refresh via
`get_device_state`. -/
def set_device_state (dm : DeviceModel δ) (cmd : Int) (w : W δ) : Outcome Unit × W δ :=
  match dm.serveCmd w.dev cmd with
  | (.connErr, d') => (.exn .connectionError, { w with dev := d', log := w.log ++ [.cmd cmd] })
  | (.readTimeout, d') => (.exn .timeout, { w with dev := d', log := w.log ++ [.cmd cmd] })
  | (.ok _, d') =>
    match get_device_state dm { w with dev := d', log := w.log ++ [.cmd cmd] } with
    | (.ok _, w₂) => (.ok (), w₂)
    | (.exn e, w₂) => (.exn e, w₂)
    | (.spin, w₂) => (.spin, w₂)

/-- The `Fan.is_on` property getter: `bool(self._data["fanspd"])`. -/
def is_on_get (w : W δ) : Except Exn Bool :=
  match pyIndex w.data "fanspd" with
  | .ok v => .ok (pyTruthy v)
  | .error e => .error e

/-- The door-waiting loop of the `is_on` setter:
`while bool(self._data["doorinprocess"]): sleep(0.25); self.get_device_state()`. -/
def doorLoop (dm : DeviceModel δ) : Nat → W δ → Outcome Unit × W δ
  | fuel, w =>
    match pyIndex w.data "doorinprocess" with
    | .error e => (.exn e, w)
    | .ok v =>
      if pyTruthy v then
        match fuel with
        | 0 => (.spin, w)
        | f + 1 =>
          match get_device_state dm w with
          | (.ok _, w₁) => doorLoop dm f w₁
          | (.exn e, w₁) => (.exn e, w₁)
          | (.spin, w₁) => (.spin, w₁)
      else (.ok (), w)

/-- The `Fan.is_on` property setter.  `state and not bool(...)` short-circuits,
so the cached speed is only read when `state` is true; turning off always
sends command 4. -/
def is_on_set (dm : DeviceModel δ) (fuel : Nat) (state : Bool) (w : W δ) : Outcome Unit × W δ :=
  if state then
    match pyIndex w.data "fanspd" with
    | .error e => (.exn e, w)
    | .ok v =>
      if !pyTruthy v then
        match set_device_state dm 1 w with
        | (.ok _, w₁) => doorLoop dm fuel w₁
        | r => r
      else (.ok (), w)
  else set_device_state dm 4 w

/-- The stepping loop of the `speed` setter:
`while self._data["fanspd"] != speed and self._data["fanspd"] != 0:
self.set_device_state(command); sleep(0.75)`. -/
def speedLoop (dm : DeviceModel δ) : Nat → Int → Int → W δ → Outcome Unit × W δ
  | fuel, command, target, w =>
    match pyIndex w.data "fanspd" with
    | .error e => (.exn e, w)
    | .ok v =>
      if pyEqJInt v target || pyEqJInt v 0 then (.ok (), w)
      else
        match fuel with
        | 0 => (.spin, w)
        | f + 1 =>
          match set_device_state dm command w with
          | (.ok _, w₁) => speedLoop dm f command target w₁
          | r => r

/-- The `Fan.speed` property setter: target `0` delegates to `is_on = False`;
otherwise turn on if off, pick command 1 (up) or 3 (down) by comparing the
target with the cached speed, and step until the cached speed equals the
target or drops to 0. -/
def speed_set (dm : DeviceModel δ) (fuel : Nat) (speed : Int) (w : W δ) : Outcome Unit × W δ :=
  if speed == 0 then is_on_set dm fuel false w
  else
    match is_on_get w with
    | .error e => (.exn e, w)
    | .ok onNow =>
      match (if !onNow then is_on_set dm fuel true w else (.ok (), w)) with
      | (.ok _, w₁) =>
        match pyIndex w₁.data "fanspd" with
        | .error e => (.exn e, w₁)
        | .ok v =>
          match pyLtIntJ speed v with
          | .error e => (.exn e, w₁)
          | .ok lt => speedLoop dm fuel (if lt then 3 else 1) speed w₁
      | r => r

/-- The `Fan.max_speed` property:
`MAX_FAN_SPEED.get(self._data["model"], 10)`.  A pure function of the table
and the cached snapshot — it performs no I/O (no `DeviceModel` involved). -/
def max_speed (table : List (String × Int)) (data : JVal) : Except Exn Int :=
  match pyIndex data "model" with
  | .error e => .error e
  | .ok mv => dict_get table mv 10

/-- `Fan.speed_up`: the chained guard
`1 <= self._data["fanspd"] < MAX_FAN_SPEED.get(self._data["model"], 10)`
evaluates left to right and short-circuits, then command 1 is sent. -/
def speed_up (dm : DeviceModel δ) (table : List (String × Int)) (w : W δ) : Outcome Unit × W δ :=
  match pyIndex w.data "fanspd" with
  | .error e => (.exn e, w)
  | .ok x =>
    match pyLeIntJ 1 x with
    | .error e => (.exn e, w)
    | .ok false => (.ok (), w)
    | .ok true =>
      match pyIndex w.data "model" with
      | .error e => (.exn e, w)
      | .ok mv =>
        match dict_get table mv 10 with
        | .error e => (.exn e, w)
        | .ok ms =>
          match pyLtJInt x ms with
          | .error e => (.exn e, w)
          | .ok false => (.ok (), w)
          | .ok true => set_device_state dm 1 w

/-- `Fan.slow_down`: `if self._data["fanspd"] > 1: self.set_device_state(3)`. -/
def slow_down (dm : DeviceModel δ) (w : W δ) : Outcome Unit × W δ :=
  match pyIndex w.data "fanspd" with
  | .error e => (.exn e, w)
  | .ok v =>
    match pyLtIntJ 1 v with
    | .error e => (.exn e, w)
    | .ok true => set_device_state dm 3 w
    | .ok false => (.ok (), w)

/-- `Fan.add_time`: unconditionally send command 2. -/
def add_time (dm : DeviceModel δ) (w : W δ) : Outcome Unit × W δ :=
  set_device_state dm 2 w

/-- A device that always answers the status endpoint with the same raw body
(used to state parse idempotence of the refresh operation). -/
def constStatusDevice (raw : List Char) : DeviceModel Unit :=
  { serveStatus := fun _ => (.ok raw, ()), serveCmd := fun _ _ => (.ok (), ()) }

/-- Decimal digits of a natural number (fuel-based, kernel-reducible). -/
def natChars : Nat → Nat → List Char
  | 0, _ => []
  | f + 1, n =>
    if n < 10 then [Char.ofNat (48 + n)]
    else natChars f (n / 10) ++ [Char.ofNat (48 + n % 10)]

/-- Decimal rendering of an integer. -/
def intChars (i : Int) : List Char :=
  if i < 0 then '-' :: natChars 20 i.natAbs else natChars 20 i.natAbs

/-- Raw status body of the C3 scenario device reporting speed `d`: the usual
well-indented lines, with the diagnostic line present. -/
def scenarioRaw (d : Int) : List Char :=
  "  \"fanspd\": ".toList ++ intChars d ++
    ",\n  \"doorinprocess\": 0,\n  \"server_response\": ok \x03,\n  \"model\": \"scenario\"".toList

/-- The C3 scenario device: always answers status with its current speed and
decrements (resp. increments) its speed on each received step command 3
(resp. 1). -/
def scenarioDev : DeviceModel Int where
  serveStatus := fun d => (.ok (scenarioRaw d), d)
  serveCmd := fun d c => (.ok (), if c == 3 then d - 1 else if c == 1 then d + 1 else d)

/-- The parse of `scenarioRaw d` when the device reports speed `q`. -/
def scenarioData (q : ℚ) : JVal :=
  JVal.obj [("fanspd", JVal.num q), ("doorinprocess", JVal.num 0),
            ("model", JVal.str "scenario")]

example : parseStatus (scenarioRaw 5) = .ok (scenarioData 5) := rfl

/-! ### Helper lemmas about logs -/

theorem cmdsOf_append (a b : List Ev) : cmdsOf (a ++ b) = cmdsOf a ++ cmdsOf b :=
  List.filterMap_append ..

/-- A status refresh appends exactly one status event to the log. -/
theorem gds_log (dm : DeviceModel δ) (w : W δ) :
    (get_device_state dm w).2.log = w.log ++ [Ev.status] := by
  cases h : dm.serveStatus w.dev with
  | mk r d' =>
    cases r with
    | ok text =>
      cases hp : parseStatus text with
      | error e => simp [get_device_state, h, hp]
      | ok v => simp [get_device_state, h, hp]
    | connErr => simp [get_device_state, h]
    | readTimeout => simp [get_device_state, h]

/-- A status refresh issues no command. -/
theorem gds_cmds (dm : DeviceModel δ) (w : W δ) :
    cmdsOf (get_device_state dm w).2.log = cmdsOf w.log := by
  rw [gds_log, cmdsOf_append]
  simp [cmdsOf]

/-- `set_device_state` issues exactly one command, with the given code,
whatever the device does. -/
theorem sds_cmds (dm : DeviceModel δ) (cmd : Int) (w : W δ) :
    cmdsOf (set_device_state dm cmd w).2.log = cmdsOf w.log ++ [cmd] := by
  cases h : dm.serveCmd w.dev cmd with
  | mk r d' =>
    cases r with
    | ok u =>
      cases hg : get_device_state dm { w with dev := d', log := w.log ++ [Ev.cmd cmd] } with
      | mk r₂ w₂ =>
        have hl := gds_cmds dm { w with dev := d', log := w.log ++ [Ev.cmd cmd] }
        rw [hg] at hl
        rw [cmdsOf_append] at hl
        have hl₂ : cmdsOf w₂.log = cmdsOf w.log ++ [cmd] := hl
        cases r₂ <;> simp [set_device_state, h, hg, hl₂]
    | connErr => simp [set_device_state, h, cmdsOf_append, cmdsOf]
    | readTimeout => simp [set_device_state, h, cmdsOf_append, cmdsOf]

/-! ### Claims -/

/-- C2: for every device model, fuel budget and cached state, `speed` setter
with target 0 is the very same computation as the `is_on` setter with
`False` (the source delegates), and the resulting log gains exactly one
command, with code 4 — in particular no speed-step command (code 1 or 3) is
issued. -/
theorem C2_speed_zero_equiv_power_off (dm : DeviceModel δ) (fuel : Nat) (w : W δ) :
    speed_set dm fuel 0 w = is_on_set dm fuel false w ∧
    cmdsOf (speed_set dm fuel 0 w).2.log = cmdsOf w.log ++ [4] := by
  have h : speed_set dm fuel 0 w = is_on_set dm fuel false w := rfl
  refine ⟨h, ?_⟩
  rw [h]
  have h₂ : is_on_set dm fuel false w = set_device_state dm 4 w := rfl
  rw [h₂]
  exact sds_cmds dm 4 w

/-- C5: `max_speed` returns the table entry when the cached model string is
a key of the table, and exactly 10 otherwise.  It is a pure function of the
table and the cached snapshot (its definition involves no `DeviceModel`),
so it performs no I/O. -/
theorem C5_max_speed_table_or_default (table : List (String × Int)) (data : JVal) (m : String)
    (hm : pyIndex data "model" = .ok (.str m)) :
    (∀ n, lookupLast table m = some n → max_speed table data = .ok n) ∧
    (lookupLast table m = none → max_speed table data = .ok 10) := by
  constructor
  · intro n hn
    simp [max_speed, hm, dict_get, hn]
  · intro hn
    simp [max_speed, hm, dict_get, hn]

theorem C5_witness :
    max_speed [("2.5e", 7)] (JVal.obj [("model", JVal.str "2.5e")]) = .ok 7 ∧
    max_speed [("2.5e", 7)] (JVal.obj [("model", JVal.str "unknown")]) = .ok 10 :=
  ⟨(C5_max_speed_table_or_default [("2.5e", 7)] (JVal.obj [("model", JVal.str "2.5e")]) "2.5e"
      rfl).1 7 rfl,
   (C5_max_speed_table_or_default [("2.5e", 7)] (JVal.obj [("model", JVal.str "unknown")]) "unknown"
      rfl).2 rfl⟩

/-- C6: when the cached speed is 0 (first conjunct) or equal to the model's
maximum (second conjunct, first part), `speed_up` is a complete no-op: it
sends nothing and returns the world unchanged.  When the cached speed lies
in `[1, max_speed)`, it issues exactly one command, with code 1. -/
theorem C6_speed_up_guard (dm : DeviceModel δ) (table : List (String × Int)) (w : W δ) (q : ℚ)
    (hx : pyIndex w.data "fanspd" = .ok (.num q)) :
    (q = 0 → speed_up dm table w = (.ok (), w)) ∧
    (∀ mv ms, pyIndex w.data "model" = .ok mv → dict_get table mv 10 = .ok ms →
      ((q = (ms : ℚ) → speed_up dm table w = (.ok (), w)) ∧
       (1 ≤ q → q < (ms : ℚ) →
         cmdsOf (speed_up dm table w).2.log = cmdsOf w.log ++ [1]))) := by
  constructor
  · intro h0
    subst h0
    have hle : pyLeIntJ 1 (JVal.num 0) = .ok false := by
      simp [pyLeIntJ]
    simp [speed_up, hx, hle]
  · intro mv ms hmv hms
    constructor
    · intro hq
      subst hq
      by_cases h1 : (1 : ℚ) ≤ (ms : ℚ)
      · have hle : pyLeIntJ 1 (JVal.num (ms : ℚ)) = .ok true := by
          simp [pyLeIntJ, h1]
        have hlt : pyLtJInt (JVal.num (ms : ℚ)) ms = .ok false := by
          simp [pyLtJInt]
        simp [speed_up, hx, hle, hmv, hms, hlt]
      · have hle : pyLeIntJ 1 (JVal.num (ms : ℚ)) = .ok false := by
          simp [pyLeIntJ, h1]
        simp [speed_up, hx, hle]
    · intro h1 hlt
      have hle : pyLeIntJ 1 (JVal.num q) = .ok true := by
        simp [pyLeIntJ, h1]
      have hltj : pyLtJInt (JVal.num q) ms = .ok true := by
        simp [pyLtJInt, hlt]
      have : speed_up dm table w = set_device_state dm 1 w := by
        simp [speed_up, hx, hle, hmv, hms, hltj]
      rw [this]
      exact sds_cmds dm 1 w

theorem C6_witness :
    speed_up (DeviceModel.mk (fun d => (.ok [], d)) (fun d _ => (.ok (), d)) : DeviceModel Unit)
        [("m", 4)] { dev := (), log := [], data := JVal.obj [("fanspd", JVal.num 0), ("model", JVal.str "m")] }
      = (.ok (), { dev := (), log := [], data := JVal.obj [("fanspd", JVal.num 0), ("model", JVal.str "m")] }) :=
  (C6_speed_up_guard
      (DeviceModel.mk (fun d => (.ok [], d)) (fun d _ => (.ok (), d)) : DeviceModel Unit)
      [("m", 4)]
      { dev := (), log := [], data := JVal.obj [("fanspd", JVal.num 0), ("model", JVal.str "m")] }
      0 rfl).1 rfl

/-- C7: `slow_down` is a complete no-op when the cached speed is at most 1,
and issues exactly one command, with code 3, when the cached speed exceeds 1. -/
theorem C7_slow_down_guard (dm : DeviceModel δ) (w : W δ) (q : ℚ)
    (hx : pyIndex w.data "fanspd" = .ok (.num q)) :
    (q ≤ 1 → slow_down dm w = (.ok (), w)) ∧
    (1 < q → cmdsOf (slow_down dm w).2.log = cmdsOf w.log ++ [3]) := by
  constructor
  · intro hle
    have hlt : pyLtIntJ 1 (JVal.num q) = .ok false := by
      simp [pyLtIntJ, not_lt.mpr hle]
    simp [slow_down, hx, hlt]
  · intro hgt
    have hlt : pyLtIntJ 1 (JVal.num q) = .ok true := by
      simp [pyLtIntJ, hgt]
    have : slow_down dm w = set_device_state dm 3 w := by
      simp [slow_down, hx, hlt]
    rw [this]
    exact sds_cmds dm 3 w

theorem C7_witness :
    slow_down (DeviceModel.mk (fun d => (.ok [], d)) (fun d _ => (.ok (), d)) : DeviceModel Unit)
        { dev := (), log := [], data := JVal.obj [("fanspd", JVal.num 1)] }
      = (.ok (), { dev := (), log := [], data := JVal.obj [("fanspd", JVal.num 1)] }) :=
  (C7_slow_down_guard
      (DeviceModel.mk (fun d => (.ok [], d)) (fun d _ => (.ok (), d)) : DeviceModel Unit)
      { dev := (), log := [], data := JVal.obj [("fanspd", JVal.num 1)] } 1 rfl).1 (by norm_num)

/-- C4: if the guard of `speed_up` passes (cached speed in `[1, max_speed)`,
expressed by the evaluated guard steps) and the command endpoint fails with
a connection error, `speed_up` propagates `ConnectionError` and the cached
`_data` snapshot is unchanged. -/
theorem C4_speed_up_connection_error (dm : DeviceModel δ) (table : List (String × Int))
    (w : W δ) (x mv : JVal) (ms : Int) (d' : δ)
    (hx : pyIndex w.data "fanspd" = .ok x)
    (h1 : pyLeIntJ 1 x = .ok true)
    (hmv : pyIndex w.data "model" = .ok mv)
    (hms : dict_get table mv 10 = .ok ms)
    (hlt : pyLtJInt x ms = .ok true)
    (hc : dm.serveCmd w.dev 1 = (.connErr, d')) :
    (speed_up dm table w).1 = .exn .connectionError ∧
    (speed_up dm table w).2.data = w.data := by
  have hstep : speed_up dm table w = set_device_state dm 1 w := by
    simp [speed_up, hx, h1, hmv, hms, hlt]
  rw [hstep]
  constructor <;> simp [set_device_state, hc]

theorem C4_witness :
    (speed_up (DeviceModel.mk (fun d => (.ok [], d)) (fun d _ => (.connErr, d)) : DeviceModel Unit)
        [] { dev := (), log := [], data := JVal.obj [("fanspd", JVal.num 3), ("model", JVal.str "m")] }).1
      = .exn .connectionError ∧
    (speed_up (DeviceModel.mk (fun d => (.ok [], d)) (fun d _ => (.connErr, d)) : DeviceModel Unit)
        [] { dev := (), log := [], data := JVal.obj [("fanspd", JVal.num 3), ("model", JVal.str "m")] }).2.data
      = JVal.obj [("fanspd", JVal.num 3), ("model", JVal.str "m")] :=
  C4_speed_up_connection_error _ [] _ (JVal.num 3) (JVal.str "m") 10 () rfl rfl rfl rfl rfl rfl

/-- C9: when the status GET succeeds but the sanitized, brace-wrapped body is
not valid JSON, `get_device_state` propagates the parse error and the cached
`_data` snapshot is exactly what it was before the call: the source assigns
`self._data` only after a successful `json.loads`. -/
theorem C9_parse_error_preserves_cache (dm : DeviceModel δ) (w : W δ) (raw : List Char)
    (d' : δ) (e : Exn)
    (hs : dm.serveStatus w.dev = (.ok raw, d'))
    (hp : parseStatus raw = .error e) :
    (get_device_state dm w).1 = .exn e ∧ (get_device_state dm w).2.data = w.data := by
  constructor <;> simp [get_device_state, hs, hp]

theorem C9_witness :
    (get_device_state (DeviceModel.mk (fun d => (.ok "  \"bad".toList, d)) (fun d _ => (.ok (), d))
        : DeviceModel Unit) { dev := (), log := [], data := JVal.null }).1 = .exn .jsonError ∧
    (get_device_state (DeviceModel.mk (fun d => (.ok "  \"bad".toList, d)) (fun d _ => (.ok (), d))
        : DeviceModel Unit) { dev := (), log := [], data := JVal.null }).2.data = JVal.null :=
  C9_parse_error_preserves_cache _ _ "  \"bad".toList () .jsonError rfl rfl

/-- C8: refreshing twice from the same raw payload (whose sanitized form is
valid JSON) is idempotent: both refreshes succeed with the same value, the
snapshot after the first refresh is that value, and the second refresh
leaves the snapshot identical. -/
theorem C8_parse_idempotent (raw : List Char) (v : JVal) (w : W Unit)
    (hp : parseStatus raw = .ok v) :
    (get_device_state (constStatusDevice raw) w).1 = .ok v ∧
    (get_device_state (constStatusDevice raw) w).2.data = v ∧
    (get_device_state (constStatusDevice raw) ((get_device_state (constStatusDevice raw) w).2)).2.data
      = (get_device_state (constStatusDevice raw) w).2.data := by
  refine ⟨?_, ?_, ?_⟩ <;> simp [get_device_state, constStatusDevice, hp]

/-- C3: with the cached state reporting speed 5 and the scenario device
decrementing by one per step command, setting the speed to 2 issues exactly
three consecutive code-3 commands, each followed by one status refresh, the
final cached snapshot reports speed 2 (which is what stopped the loop), and
the call returns normally. -/
theorem C3_slow_to_two_scenario :
    speed_set scenarioDev 10 2 { dev := 5, log := [], data := scenarioData 5 }
      = (.ok (), { dev := 2,
                   log := [Ev.cmd 3, Ev.status, Ev.cmd 3, Ev.status, Ev.cmd 3, Ev.status],
                   data := scenarioData 2 }) := by
  have hp4 : parseStatus (scenarioRaw 4) = .ok (scenarioData 4) := rfl
  have hp3 : parseStatus (scenarioRaw 3) = .ok (scenarioData 3) := rfl
  have hp2 : parseStatus (scenarioRaw 2) = .ok (scenarioData 2) := rfl
  have ix : ∀ q : ℚ, pyIndex (scenarioData q) "fanspd" = .ok (.num q) := by
    intro q; simp [scenarioData, pyIndex, lookupLast]
  have st5 : ∀ (L : List Ev) (X : JVal),
      set_device_state scenarioDev 3 { dev := 5, log := L, data := X }
        = (.ok (), { dev := 4, log := L ++ [Ev.cmd 3, Ev.status], data := scenarioData 4 }) := by
    intro L X
    simp [set_device_state, scenarioDev, get_device_state, hp4]
  have st4 : ∀ (L : List Ev) (X : JVal),
      set_device_state scenarioDev 3 { dev := 4, log := L, data := X }
        = (.ok (), { dev := 3, log := L ++ [Ev.cmd 3, Ev.status], data := scenarioData 3 }) := by
    intro L X
    simp [set_device_state, scenarioDev, get_device_state, hp3]
  have st3 : ∀ (L : List Ev) (X : JVal),
      set_device_state scenarioDev 3 { dev := 3, log := L, data := X }
        = (.ok (), { dev := 2, log := L ++ [Ev.cmd 3, Ev.status], data := scenarioData 2 }) := by
    intro L X
    simp [set_device_state, scenarioDev, get_device_state, hp2]
  have e22 : pyEqJInt (JVal.num (2:ℚ)) 2 = true := rfl
  have e52 : pyEqJInt (JVal.num (5:ℚ)) 2 = false := rfl
  have e50 : pyEqJInt (JVal.num (5:ℚ)) 0 = false := rfl
  have e42 : pyEqJInt (JVal.num (4:ℚ)) 2 = false := rfl
  have e40 : pyEqJInt (JVal.num (4:ℚ)) 0 = false := rfl
  have e32 : pyEqJInt (JVal.num (3:ℚ)) 2 = false := rfl
  have e30 : pyEqJInt (JVal.num (3:ℚ)) 0 = false := rfl
  have l7 : ∀ L : List Ev, speedLoop scenarioDev 7 3 2 { dev := 2, log := L, data := scenarioData 2 }
      = (.ok (), { dev := 2, log := L, data := scenarioData 2 }) := by
    intro L
    rw [speedLoop]
    simp [ix, e22]
  have l8 : ∀ L : List Ev, speedLoop scenarioDev 8 3 2 { dev := 3, log := L, data := scenarioData 3 }
      = (.ok (), { dev := 2, log := L ++ [Ev.cmd 3, Ev.status], data := scenarioData 2 }) := by
    intro L
    rw [speedLoop]
    simp [ix, e32, e30, st3, l7]
  have l9 : ∀ L : List Ev, speedLoop scenarioDev 9 3 2 { dev := 4, log := L, data := scenarioData 4 }
      = (.ok (), { dev := 2, log := L ++ [Ev.cmd 3, Ev.status, Ev.cmd 3, Ev.status],
                   data := scenarioData 2 }) := by
    intro L
    rw [speedLoop]
    simp [ix, e42, e40, st4, l8]
  have l10 : speedLoop scenarioDev 10 3 2 { dev := 5, log := [], data := scenarioData 5 }
      = (.ok (), { dev := 2,
                   log := [Ev.cmd 3, Ev.status, Ev.cmd 3, Ev.status, Ev.cmd 3, Ev.status],
                   data := scenarioData 2 }) := by
    rw [speedLoop]
    simp [ix, e52, e50, st5, l9]
  have tr : pyTruthy (JVal.num (5:ℚ)) = true := rfl
  have lt : pyLtIntJ 2 (JVal.num (5:ℚ)) = .ok true := rfl
  simp [speed_set, is_on_get, ix, tr, lt, l10]

theorem C8_witness :
    (get_device_state (constStatusDevice "  \"fanspd\": 2".toList) { dev := (), log := [], data := JVal.null }).1
      = .ok (JVal.obj [("fanspd", JVal.num 2)]) ∧
    (get_device_state (constStatusDevice "  \"fanspd\": 2".toList) { dev := (), log := [], data := JVal.null }).2.data
      = JVal.obj [("fanspd", JVal.num 2)] ∧
    (get_device_state (constStatusDevice "  \"fanspd\": 2".toList)
        ((get_device_state (constStatusDevice "  \"fanspd\": 2".toList) { dev := (), log := [], data := JVal.null }).2)).2.data
      = (get_device_state (constStatusDevice "  \"fanspd\": 2".toList) { dev := (), log := [], data := JVal.null }).2.data :=
  C8_parse_idempotent "  \"fanspd\": 2".toList (JVal.obj [("fanspd", JVal.num 2)]) _ rfl

/-! ### Soundness of the sanitizing scan (for C1 and C10) -/

/-- A word character is not a newline. -/
theorem word_not_nl (c : Char) (h : isWord c = true) : notNl c = true := by
  by_contra hn
  have hc : c = '\n' := by
    have : notNl c = false := by
      cases hnl : notNl c with
      | false => rfl
      | true => exact absurd hnl hn
    simpa [notNl] using this
  rw [hc] at h
  exact absurd h (by decide)

/-- Dropping a whitespace run that the lookahead has walked through: if the
lookahead body fails after at least one whitespace character, the marker is
absent from the line at the end of the run. -/
theorem lookAafter_drop :
    ∀ (ws : List Char), (∀ c ∈ ws, isWs c = true) →
      ∀ x, lookAafter (ws ++ x) = false → lineSR x = false := by
  intro ws
  induction ws with
  | nil =>
    intro _ x h
    cases x with
    | nil => decide
    | cons c r =>
      simp only [lookAafter] at h
      exact (Bool.or_eq_false_iff.mp h).1
  | cons w ws ih =>
    intro hws x h
    have hw : isWs w = true := hws w (List.mem_cons_self w ws)
    rw [List.cons_append] at h
    simp only [lookAafter] at h
    have h2 := (Bool.or_eq_false_iff.mp h).2
    rw [hw, Bool.true_and] at h2
    exact ih (fun c hc => hws c (List.mem_cons_of_mem w hc)) x h2

/-- Same for the whole lookahead `\s+.*server_response\".*$`. -/
theorem lookA_drop (ws x : List Char) (hne : ws ≠ [])
    (hws : ∀ c ∈ ws, isWs c = true) (h : lookA (ws ++ x) = false) :
    lineSR x = false := by
  cases ws with
  | nil => exact absurd rfl hne
  | cons w ws =>
    have hw : isWs w = true := hws w (List.mem_cons_self w ws)
    rw [List.cons_append] at h
    simp only [lookA] at h
    rw [hw, Bool.true_and] at h
    exact lookAafter_drop ws (fun c hc => hws c (List.mem_cons_of_mem w hc)) x h

/-- The marker starts with a non-whitespace character, so it cannot start at
a whitespace position. -/
theorem startsW_srMarker_ws (w : Char) (l : List Char) (hw : isWs w = true) :
    startsW srMarker (w :: l) = false := by
  have hsr : srMarker = 's' :: "erver_response\"".toList := rfl
  rw [hsr, startsW]
  cases hc : (('s' : Char) == w) with
  | false => rfl
  | true =>
    have hws : ('s' : Char) = w := by simpa using hc
    rw [← hws] at hw
    exact absurd hw (by decide)

/-- The marker contains no whitespace, so prefixing an all-whitespace run
does not create an occurrence. -/
theorem hasSub_srMarker_ws_append :
    ∀ (ws : List Char), (∀ c ∈ ws, isWs c = true) →
      ∀ x, hasSub srMarker (ws ++ x) = hasSub srMarker x := by
  intro ws
  induction ws with
  | nil => intro _ x; rfl
  | cons w ws ih =>
    intro hws x
    have hw : isWs w = true := hws w (List.mem_cons_self w ws)
    rw [List.cons_append, hasSub, startsW_srMarker_ws w _ hw, Bool.false_or]
    exact ih (fun c hc => hws c (List.mem_cons_of_mem w hc)) x

/-- Shape of a successful main-pattern match at a position where the
negative lookahead passed: leading nonempty whitespace, a quote, a word
character, a newline-free tail, and no marker in the non-whitespace part. -/
theorem mainMatch_spec (cs m rest : List Char)
    (hm : mainMatch cs = some (m, rest)) (hl : lookA cs = false) :
    ∃ ws c₂ tl, m = ws ++ '"' :: c₂ :: tl ∧ ws ≠ [] ∧ (∀ x ∈ ws, isWs x = true) ∧
      isWord c₂ = true ∧ hasSub srMarker ('"' :: c₂ :: tl) = false := by
  unfold mainMatch at hm
  cases hd : cs.dropWhile isWs with
  | nil => rw [hd] at hm; simp at hm
  | cons c₁ d₁ =>
    cases d₁ with
    | nil => rw [hd] at hm; simp at hm
    | cons c₂ rest₂ =>
      rw [hd] at hm
      have hm₂ : (if (cs.takeWhile isWs).isEmpty = true then (none : Option (List Char × List Char))
          else if (c₁ == '"' && isWord c₂) = true then
            some (cs.takeWhile isWs ++ c₁ :: c₂ :: rest₂.takeWhile notNl, rest₂.dropWhile notNl)
          else none) = some (m, rest) := hm
      by_cases he : (cs.takeWhile isWs).isEmpty = true
      · rw [if_pos he] at hm₂; simp at hm₂
      · rw [if_neg he] at hm₂
        by_cases hq : (c₁ == '"' && isWord c₂) = true
        · rw [if_pos hq] at hm₂
          simp only [Option.some.injEq, Prod.mk.injEq] at hm₂
          obtain ⟨hm1, _⟩ := hm₂
          obtain ⟨hq1, hq2⟩ := Bool.and_eq_true_iff.mp hq
          have hc₁ : c₁ = '"' := by simpa using hq1
          have hne : cs.takeWhile isWs ≠ [] := by
            intro hnil
            rw [hnil] at he
            exact he rfl
          have hws : ∀ x ∈ cs.takeWhile isWs, isWs x = true :=
            fun x hx => List.mem_takeWhile_imp hx
          have hcs : cs.takeWhile isWs ++ (c₁ :: c₂ :: rest₂) = cs := by
            have := List.takeWhile_append_dropWhile (p := isWs) (l := cs)
            rw [hd] at this
            exact this
          have hlsr : lineSR (c₁ :: c₂ :: rest₂) = false := by
            refine lookA_drop (cs.takeWhile isWs) (c₁ :: c₂ :: rest₂) hne hws ?_
            rw [hcs]
            exact hl
          have hnl₁ : notNl c₁ = true := by rw [hc₁]; decide
          have hnl₂ : notNl c₂ = true := word_not_nl c₂ hq2
          rw [lineSR, List.takeWhile_cons_of_pos hnl₁, List.takeWhile_cons_of_pos hnl₂] at hlsr
          refine ⟨cs.takeWhile isWs, c₂, rest₂.takeWhile notNl, ?_, hne, hws, hq2, ?_⟩
          · rw [← hm1, hc₁]
          · rw [← hc₁]
            exact hlsr
        · rw [if_neg hq] at hm₂; simp at hm₂

/-- Every match produced by the scan has the `mainMatch_spec` shape and is
free of the diagnostic marker. -/
theorem scanF_sound :
    ∀ (fuel : Nat) (cs : List Char) (atStart : Bool) (m : List Char),
      m ∈ scanF fuel cs atStart →
      ∃ ws c₂ tl, m = ws ++ '"' :: c₂ :: tl ∧ ws ≠ [] ∧ (∀ x ∈ ws, isWs x = true) ∧
        isWord c₂ = true ∧ hasSub srMarker ('"' :: c₂ :: tl) = false := by
  intro fuel
  induction fuel with
  | zero => intro cs atStart m hm; simp [scanF] at hm
  | succ f ih =>
    intro cs atStart m hm
    cases cs with
    | nil => simp [scanF] at hm
    | cons c rest =>
      rw [scanF] at hm
      by_cases hc : (atStart && !lookA (c :: rest)) = true
      · rw [if_pos hc] at hm
        cases hmm : mainMatch (c :: rest) with
        | none => rw [hmm] at hm; exact ih rest (c == '\n') m hm
        | some pr =>
          obtain ⟨m₀, after⟩ := pr
          rw [hmm] at hm
          rcases List.mem_cons.mp hm with h | h
          · subst h
            have hla : lookA (c :: rest) = false := by
              have h2 := (Bool.and_eq_true_iff.mp hc).2
              rw [Bool.not_eq_true'] at h2
              exact h2
            exact mainMatch_spec _ _ _ hmm hla
          · exact ih after false m h
      · rw [if_neg hc] at hm
        exact ih rest (c == '\n') m hm

/-- C1: the sanitization step of the state refresh excludes every line
containing the diagnostic free-text field from the object that is parsed,
whatever the line contains: no match kept by `cleanList` contains the
`server_response"` marker (which every raw line carrying the serialized
`"server_response"` field contains), so the brace-wrapped text handed to
the JSON parser is free of that field. -/
theorem C1_sanitization_excludes_diagnostic (raw m : List Char)
    (hm : m ∈ cleanList raw) : hasSub srMarker m = false := by
  obtain ⟨ws, c₂, tl, rfl, hne, hws, hw, hfree⟩ := scanF_sound _ _ _ _ hm
  rw [hasSub_srMarker_ws_append ws hws]
  exact hfree

theorem C1_witness : hasSub srMarker "  \"fanspd\": 5".toList = false := by
  have h : cleanList "  \"fanspd\": 5".toList = ["  \"fanspd\": 5".toList] := rfl
  exact C1_sanitization_excludes_diagnostic "  \"fanspd\": 5".toList _
    (by rw [h]; exact List.mem_singleton_self _)

/-- C10, counterexample to the claim as stated: the claim says a well-formed
`"key": value` line starting at column zero is always dropped, and that a
kept line begins with whitespace.  But Python `\s` matches newlines, so on
the raw payload consisting of an empty first line followed by a column-zero
`"fanspd": 5` line, the match absorbs the preceding newline as the required
whitespace: the line is kept and `fanspd` appears in the parsed object. -/
theorem C10_counterexample :
    cleanList "\n\"fanspd\": 5".toList = ["\n\"fanspd\": 5".toList] ∧
    parseStatus "\n\"fanspd\": 5".toList = .ok (JVal.obj [("fanspd", JVal.num 5)]) :=
  ⟨rfl, rfl⟩

/-- C10, amended: every kept match begins with at least one whitespace
character — which, since `\s` matches newlines, may be supplied by a
preceding newline or whitespace-only run — followed by a double quote and a
word character (first conjunct).  A column-zero key line is dropped when the
text up to it is not pure whitespace: at the very start of the payload
(second conjunct) or after a non-whitespace line (third conjunct).  No colon
is required on a kept line (fourth conjunct). -/
theorem C10_amended_filter_shape :
    (∀ raw m, m ∈ cleanList raw → ∃ ws c₂ tl,
        m = ws ++ '"' :: c₂ :: tl ∧ ws ≠ [] ∧ (∀ x ∈ ws, isWs x = true) ∧ isWord c₂ = true) ∧
    cleanList "\"fanspd\": 5".toList = [] ∧
    cleanList "x\n\"fanspd\": 5".toList = [] ∧
    cleanList "  \"nocolon 7".toList = ["  \"nocolon 7".toList] := by
  refine ⟨?_, rfl, rfl, rfl⟩
  intro raw m hm
  obtain ⟨ws, c₂, tl, hsh, hne, hws, hw, _⟩ := scanF_sound _ _ _ _ hm
  exact ⟨ws, c₂, tl, hsh, hne, hws, hw⟩

theorem C10_amended_witness :
    ∃ ws c₂ tl, "  \"nocolon 7".toList = ws ++ '"' :: c₂ :: tl ∧ ws ≠ [] ∧
      (∀ x ∈ ws, isWs x = true) ∧ isWord c₂ = true := by
  have h : cleanList "  \"nocolon 7".toList = ["  \"nocolon 7".toList] := rfl
  exact C10_amended_filter_shape.1 "  \"nocolon 7".toList _
    (by rw [h]; exact List.mem_singleton_self _)

end Airscape
